import Mathlib

/-!
Shallow embedding of `generate_charging_report.py` (EV charging report
generator): the price-matching and aggregation engine, the cache manager,
and the session filter.

Modelling conventions:
* Timestamps are integers, counted in minutes (so `timedelta(hours=1)` is 60).
* Python floats are embedded as rationals `ℚ`; `round(x, 2)` / pandas
  `.round(2)` is banker's rounding (round-half-to-even) at two decimals,
  modelled by `round2`.
* A pandas DataFrame column-wise computation is modelled as a `List` map /
  filter over row records.
* Python `None` flowing through a variable of row-table type is modelled by
  `Option`; an operation that raises on `None` is modelled in `Except`.
-/

/-- One row of the Wallbox dataframe: a charging session.
Source columns used by the program: `start`, `end`, `energy`,
`id_chip_name` (the identifier; `Option` because pandas cells can be NaN,
which `str.contains(..., na=False)` treats as no match). -/
structure SessionRow where
  start : ℤ
  «end» : ℤ
  energy : ℚ
  id_chip_name : Option String
deriving DecidableEq

/-- One row of the Tibber dataframe: an hourly price interval with fields
`from`, `to`, `unitPrice`, `consumption`, `cost` (the GraphQL node fields). -/
structure PriceInterval where
  «from» : ℤ
  «to» : ℤ
  unitPrice : ℚ
  consumption : ℚ
  cost : ℚ
deriving DecidableEq

/-- `address` record (`address1`, `postalCode`, `city`). -/
structure Address where
  address1 : String
  postalCode : String
  city : String
deriving DecidableEq

/-- `owner` record (`firstName`, `lastName`). -/
structure Owner where
  firstName : String
  lastName : String
deriving DecidableEq

/-- Banker's rounding of a rational to an integer: the behaviour of Python's
`round` and of numpy/pandas `.round` (round half to even).  With
`f = ⌊q⌋` and fractional part `r = q - f` in `[0, 1)`: below a half round
down, above a half round up, and a tie goes to the even neighbour. -/
def bankRound (q : ℚ) : ℤ :=
  let f : ℤ := ⌊q⌋
  let r : ℚ := q - (f : ℚ)
  if r < 1/2 then f
  else if 1/2 < r then f + 1
  else if f % 2 = 0 then f else f + 1

/-- `round(x, 2)`: rounding to two decimal places. -/
def round2 (q : ℚ) : ℚ := (bankRound (100 * q) : ℚ) / 100

/-- Source line 197: the boolean mask
`(tibber_df['from'] <= end_time) & (tibber_df['to'] >= start_time)`
applied to the price table — the intervals overlapping the session. -/
def price_during_session (start_time end_time : ℤ) (tibber_df : List PriceInterval) :
    List PriceInterval :=
  tibber_df.filter fun r => decide (r.«from» ≤ end_time) && decide (r.«to» ≥ start_time)

/-- Source lines 196–201, `calculate_tibber_price`: 0 when the selection is
empty, otherwise the (unweighted) mean of `unitPrice` over the selection. -/
def calculate_tibber_price (start_time end_time : ℤ) (tibber_df : List PriceInterval) : ℚ :=
  let sel := price_during_session start_time end_time tibber_df
  if sel.isEmpty then 0
  else (sel.map PriceInterval.unitPrice).sum / (sel.length : ℚ)

/-- Source line 199: the guard of the `print` diagnostic
("No matching Tibber price found for session ...") — emitted exactly when
the selection is empty. -/
def no_match_diagnostic (start_time end_time : ℤ) (tibber_df : List PriceInterval) : Bool :=
  (price_during_session start_time end_time tibber_df).isEmpty

/-- Does `small` occur at the head of `big` (character-wise equality)? -/
def leadsWith : List Char → List Char → Bool
  | [], _ => true
  | _ :: _, [] => false
  | a :: as, b :: bs => a == b && leadsWith as bs

/-- Does `pat` occur as a contiguous segment of `text`? -/
def hasSegment (pat : List Char) : List Char → Bool
  | [] => leadsWith pat []
  | t :: ts => leadsWith pat (t :: ts) || hasSegment pat ts

/-- Case-insensitive literal substring containment: the reading of
"identifier contains `identifierSubstring` case-insensitively" in the spec
(both sides lower-cased, contiguous occurrence). -/
def spec_contains_ci (hay pat : String) : Bool :=
  hasSegment (pat.toList.map Char.toLower) (hay.toList.map Char.toLower)

/-- Python `re` match of a pattern at the head of the text, with
`re.IGNORECASE`.  `pandas.Series.str.contains(pat, case=False, na=False)`
compiles `pat` as a regular expression (its default is `regex=True`), so
regex search — not literal substring containment — is what source line
332 runs.  This definition is a faithful model of `re` only on the
fragment used by the theorems below: patterns made of ASCII
non-metacharacter literals plus the metacharacter `'.'` (which matches
any single character except a newline, `re`'s default), matched against
ASCII text (Lean's `Char.toLower` folds case only for ASCII, while
Python's `IGNORECASE` folds Unicode).  No theorem in this file asserts
anything about its value outside that fragment. -/
def patMatchAt : List Char → List Char → Bool
  | [], _ => true
  | _ :: _, [] => false
  | p :: ps, t :: ts =>
    ((p == '.' && !(t == '\n')) || p.toLower == t.toLower) && patMatchAt ps ts

/-- `re.search` over the same pattern fragment: does the pattern match at
some position of the text (including the position at its end)? -/
def patSearch (pat : List Char) : List Char → Bool
  | [] => patMatchAt pat []
  | t :: ts => patMatchAt pat (t :: ts) || patSearch pat ts

/-- Source line 332: `wallbox_data['id_chip_name'].str.contains(id_chip_name,
case=False, na=False)` on one cell holding string `hay`; faithful on the
fragment described at `patMatchAt`. -/
def str_contains_ci (hay pat : String) : Bool :=
  patSearch pat.toList hay.toList

/-- The code points of Python `re`'s metacharacters: the characters
`.` `^` `$` `*` `+` `?` (codes 46, 94, 36, 42, 43, 63), the two curly
braces (123, 125), the two square brackets (91, 93), the backslash (92),
`|` (124) and the two parentheses (40, 41). -/
def pyRegexMetaCodes : List Nat :=
  [46, 94, 36, 42, 43, 63, 123, 125, 91, 93, 92, 124, 40, 41]

/-- `pat` lies in the literal fragment of the regex model: every character
is ASCII and none is a Python `re` metacharacter.  On such patterns
`re.search(pat, text, re.IGNORECASE)` is exactly case-insensitive literal
substring search. -/
def literalAsciiPattern (pat : String) : Bool :=
  pat.toList.all fun c => decide (c.toNat < 128) && !(pyRegexMetaCodes.contains c.toNat)

/-- `s` consists of ASCII characters only (so Python's Unicode-aware case
folding and Lean's ASCII `Char.toLower` agree on it). -/
def asciiOnly (s : String) : Bool :=
  s.toList.all fun c => decide (c.toNat < 128)

/-- Source lines 331–335: the row predicate of the filter inside
`process_data_with_filters` — identifier regex-contains the input
(NaN cells never match, `na=False`), `start >= start_date`,
`end <= end_date`. -/
def sessionPred (id_chip_name : String) (start_date end_date : ℤ) (r : SessionRow) : Bool :=
  (match r.id_chip_name with
   | some s => str_contains_ci s id_chip_name
   | none => false)
  && decide (r.start ≥ start_date) && decide (r.«end» ≤ end_date)

/-- Source lines 331–335: `filtered_data = wallbox_data[...mask...]` —
a stable filter of the rows. -/
def filtered_rows (wallbox_data : List SessionRow) (id_chip_name : String)
    (start_date end_date : ℤ) : List SessionRow :=
  wallbox_data.filter (sessionPred id_chip_name start_date end_date)

/-- A session row augmented with the two derived columns
`'Tibber Price [EUR/kWh]'` and `'Total Cost [EUR]'`. -/
structure PricedRow where
  base : SessionRow
  tibberPrice : ℚ
  totalCost : ℚ
deriving DecidableEq

/-- Source lines 339–346: each filtered row gains
`'Tibber Price [EUR/kWh]' = calculate_tibber_price(start, end, tibber_df)`
and `'Total Cost [EUR]' = energy * price` (no rounding here). -/
def price_sessions (tibber_df : List PriceInterval) (rows : List SessionRow) :
    List PricedRow :=
  rows.map fun row =>
    let p := calculate_tibber_price row.start row.«end» tibber_df
    ⟨row, p, row.energy * p⟩

/-- Source line 347: `total_energy = filtered_data['energy'].sum()`. -/
def total_energy (rows : List PricedRow) : ℚ :=
  (rows.map fun r => r.base.energy).sum

/-- Source line 348: `total_cost = filtered_data['Total Cost [EUR]'].sum()`. -/
def total_cost (rows : List PricedRow) : ℚ :=
  (rows.map fun r => r.totalCost).sum

/-- Source lines 330–348, the computational part of
`process_data_with_filters`: filter, price, total. -/
def process_data_with_filters (wallbox_data : List SessionRow)
    (tibber_df : List PriceInterval) (id_chip_name : String)
    (start_date end_date : ℤ) : List PricedRow × ℚ × ℚ :=
  let priced := price_sessions tibber_df
    (filtered_rows wallbox_data id_chip_name start_date end_date)
  (priced, total_energy priced, total_cost priced)

/-- A row of the CSV written by `export_table_with_prices`, which is also
the state of the `wallbox_data` dataframe after that call: line 209 assigns
the rounded `energy`, price and cost columns back into `wallbox_data`
in place. -/
structure ExportRow where
  start : ℤ
  «end» : ℤ
  energy : ℚ
  id_chip_name : Option String
  tibberPrice : ℚ
  totalCost : ℚ
deriving DecidableEq

/-- Source lines 204–210, `export_table_with_prices`: add the price column,
compute `'Total Cost [EUR]' = energy * price`, then round the three columns
`energy`, price, cost to 2 decimals in place and write the frame to CSV.
The result is both the CSV content and the mutated `wallbox_data`. -/
def export_table_with_prices (wallbox_data : List SessionRow)
    (tibber_df : List PriceInterval) : List ExportRow :=
  wallbox_data.map fun r =>
    let p := calculate_tibber_price r.start r.«end» tibber_df
    let c := r.energy * p
    ⟨r.start, r.«end», round2 r.energy, r.id_chip_name, round2 p, round2 c⟩

/-- The pickled cache dict built by `save_cache` (lines 87–98): keys
`timestamp`, `wallbox_data`, `tibber_data`, `address`, `owner`.  The data
fields are `Option` because `main` passes along whatever the fetch
functions returned, which is Python `None` when a fetch failed. -/
structure CacheEntry where
  timestamp : ℤ
  wallbox_data : Option (List SessionRow)
  tibber_data : Option (List PriceInterval)
  address : Option Address
  owner : Option Owner
deriving DecidableEq

/-- Source lines 87–98, `save_cache`: stores exactly what it is given,
stamped with the current time; the previous file content is replaced. -/
def save_cache (now : ℤ) (wallbox_data : Option (List SessionRow))
    (tibber_df : Option (List PriceInterval)) (address : Option Address)
    (owner : Option Owner) : CacheEntry :=
  ⟨now, wallbox_data, tibber_df, address, owner⟩

/-- The state of the on-disk cache file `cache.pkl`: absent, present but
not unpicklable (or otherwise malformed), or a stored entry. -/
inductive CacheFile where
  | absent
  | corrupt
  | stored (entry : CacheEntry)
deriving DecidableEq

/-- Source lines 56–67, `is_cache_valid`: `False` when the file does not
exist; otherwise `pickle.load` runs with no exception handler (a corrupt
file raises, modelled as `Except.error`), and the result is
`datetime.now() - cache['timestamp'] < timedelta(hours=1)` (minutes: 60). -/
def is_cache_valid (now : ℤ) (file : CacheFile) : Except String Bool :=
  match file with
  | .absent => .ok false
  | .corrupt => .error "UnpicklingError"
  | .stored c => .ok (decide (now - c.timestamp < 60))

/-- What `main` (lines 360–363) does with the cache check: a `True` result
uses the cache, a `False` result fetches fresh data, and an uncaught
exception terminates the process. -/
inductive CachePath where
  | useCache
  | fetchFresh
  | fatal (msg : String)
deriving DecidableEq

/-- Source lines 360–365: branch of `main` on `is_cache_valid()`. -/
def main_cache_decision (now : ℤ) (file : CacheFile) : CachePath :=
  match is_cache_valid now file with
  | .ok true => .useCache
  | .ok false => .fetchFresh
  | .error e => .fatal e

/-- Source lines 365–374, the fetch-then-save branch of `main`:
`fetch_wallbox_data` yields `(wallbox_data, address, owner)` or
`(None, None, None)` on a caught `RequestException` (lines 120–122), and
similarly `fetch_tibber_data`; `main` then calls
`save_cache(wallbox_data, tibber_df, tibber_address, tibber_owner)`
unconditionally — there is no check that either fetch succeeded. -/
def main_fetch_branch (now : ℤ)
    (wallbox_result : Option (List SessionRow × Address × Owner))
    (tibber_result : Option (List PriceInterval × Address × Owner)) : CacheEntry :=
  save_cache now (wallbox_result.map Prod.fst) (tibber_result.map Prod.fst)
    (tibber_result.map fun x => x.2.1) (tibber_result.map fun x => x.2.2)

/-- Source line 378, `export_table_with_prices(wallbox_data, tibber_df)`
as executed by `main` right after the cache branch, on possibly-`None`
arguments.  `None.apply` raises `AttributeError` before anything is
written; with a table of sessions but `tibber_df = None`, the first call
to `calculate_tibber_price` indexes `None` and raises `TypeError` (pandas
does not invoke the lambda on an empty frame, so an empty session table
writes an empty CSV). -/
def main_export_step (wallbox_data : Option (List SessionRow))
    (tibber_df : Option (List PriceInterval)) : Except String (List ExportRow) :=
  match wallbox_data, tibber_df with
  | none, _ => .error "AttributeError"
  | some rows, some tb => .ok (export_table_with_prices rows tb)
  | some rows, none => if rows.isEmpty then .ok [] else .error "TypeError"

/-- A concrete address, for closed instances. -/
def demoAddress : Address := ⟨"Unknown", "00000", "Unknown"⟩

/-- A concrete owner, for closed instances. -/
def demoOwner : Owner := ⟨"Unknown", "Unknown"⟩

/-- A one-interval price table (10:00–11:00 at 0.30 EUR/kWh, minutes since
midnight), for closed instances. -/
def demoTibber : List PriceInterval := [⟨600, 660, 3/10, 1, 3/10⟩]

/-- A one-session Wallbox table (10:00–11:00, 10 kWh, chip "Volvo"), for
closed instances. -/
def demoWallbox : List SessionRow := [⟨600, 660, 10, some "Volvo"⟩]

/-- A price table whose single interval covers minute 0–60 at unit price
0.333, chosen so that two-decimal rounding visibly changes a cost. -/
def thirdTibber : List PriceInterval := [⟨0, 60, 333/1000, 0, 0⟩]

/-- A single 1-kWh session over minutes 0–60. -/
def unitSession : List SessionRow := [⟨0, 60, 1, some "Volvo"⟩]

/-! ## Helper lemmas -/

lemma bankRound_of_lt (q : ℚ) (f : ℤ) (h1 : (f : ℚ) ≤ q) (h2 : q - f < 1/2) :
    bankRound q = f := by
  have hf : ⌊q⌋ = f := Int.floor_eq_iff.mpr ⟨h1, by linarith⟩
  simp only [bankRound, hf]
  rw [if_pos h2]

lemma bankRound_of_gt (q : ℚ) (f : ℤ) (h1 : q < (f : ℚ) + 1) (h2 : 1/2 < q - f) :
    bankRound q = f + 1 := by
  have hf : ⌊q⌋ = f := Int.floor_eq_iff.mpr ⟨by linarith, h1⟩
  simp only [bankRound, hf]
  rw [if_neg (by linarith), if_pos h2]

lemma round2_eval_lo (q : ℚ) (f : ℤ) (h1 : (f : ℚ) ≤ 100 * q) (h2 : 100 * q - f < 1/2) :
    round2 q = (f : ℚ) / 100 := by
  rw [round2, bankRound_of_lt (100 * q) f h1 h2]

lemma round2_eval_hi (q : ℚ) (f : ℤ) (h1 : 100 * q < (f : ℚ) + 1) (h2 : 1/2 < 100 * q - f) :
    round2 q = ((f : ℚ) + 1) / 100 := by
  rw [round2, bankRound_of_gt (100 * q) f h1 h2]
  push_cast
  ring

lemma patMatchAt_of_noMeta (pat : List Char) :
    ∀ text : List Char, (∀ c ∈ pat, c ≠ '.') →
      patMatchAt pat text = leadsWith (pat.map Char.toLower) (text.map Char.toLower) := by
  induction pat with
  | nil => intro text h; cases text <;> rfl
  | cons p ps ih =>
    intro text h
    cases text with
    | nil => rfl
    | cons t ts =>
      have hp : (p == '.') = false := by
        simpa using h p (List.mem_cons_self p ps)
      have hps := ih ts fun c hc => h c (List.mem_cons_of_mem p hc)
      simp [patMatchAt, leadsWith, hp, hps]

lemma patSearch_of_noMeta (pat : List Char) (h : ∀ c ∈ pat, c ≠ '.') :
    ∀ text : List Char,
      patSearch pat text = hasSegment (pat.map Char.toLower) (text.map Char.toLower) := by
  intro text
  induction text with
  | nil => simpa [patSearch, hasSegment] using patMatchAt_of_noMeta pat [] h
  | cons t ts ih =>
    simp [patSearch, hasSegment, ih, patMatchAt_of_noMeta pat (t :: ts) h]

lemma str_contains_ci_of_literal (hay pat : String) (h : literalAsciiPattern pat = true) :
    str_contains_ci hay pat = spec_contains_ci hay pat := by
  have h' : ∀ c ∈ pat.toList, c ≠ '.' := by
    intro c hc heq
    have hall := List.all_eq_true.mp h c hc
    rw [heq] at hall
    exact absurd hall (by decide)
  simpa [str_contains_ci, spec_contains_ci] using
    patSearch_of_noMeta pat.toList h' hay.toList

/-! ## Claims -/

/-- Claim C1: for every session `[start, end)` and price table,
`calculate_tibber_price` returns 0 exactly when the set of overlapping
price intervals is empty (and then the no-match diagnostic fires), and
otherwise returns the unweighted arithmetic mean of `unitPrice` over all
overlapping intervals (sum divided by count, with no duration weights). -/
theorem calculate_tibber_price_cases (s e : ℤ) (tb : List PriceInterval) :
    (price_during_session s e tb = [] →
      calculate_tibber_price s e tb = 0 ∧ no_match_diagnostic s e tb = true)
    ∧ (price_during_session s e tb ≠ [] →
      no_match_diagnostic s e tb = false ∧
      calculate_tibber_price s e tb =
        ((price_during_session s e tb).map PriceInterval.unitPrice).sum
          / ((price_during_session s e tb).length : ℚ)) := by
  constructor
  · intro h
    simp [calculate_tibber_price, no_match_diagnostic, h]
  · intro h
    simp [calculate_tibber_price, no_match_diagnostic, h]

/-- Concrete instance of C1: an empty table gives price 0, and the
10:00–11:00 session against the 10:00–11:00 interval at 0.30 gives 0.30. -/
theorem calculate_tibber_price_cases_witness :
    calculate_tibber_price 0 10 [] = 0
    ∧ calculate_tibber_price 600 660 demoTibber = 3/10 := by
  constructor
  · exact ((calculate_tibber_price_cases 0 10 []).1 rfl).1
  · have h := ((calculate_tibber_price_cases 600 660 demoTibber).2
      (by simp [price_during_session, demoTibber])).2
    simpa [price_during_session, demoTibber] using h

/-- Claim C2: an interval of the table is selected as overlapping the
session `[start, end)` exactly when `from ≤ end` and `to ≥ start`; in
particular the touching-endpoint case — session `[10:00, 11:00)` against a
table holding only `[09:00, 10:00)` — yields that interval's price, not 0. -/
theorem overlap_predicate_inclusive :
    (∀ (s e : ℤ) (tb : List PriceInterval) (iv : PriceInterval),
      iv ∈ price_during_session s e tb ↔ iv ∈ tb ∧ iv.«from» ≤ e ∧ iv.«to» ≥ s)
    ∧ ∀ p c k : ℚ, calculate_tibber_price 600 660 [⟨540, 600, p, c, k⟩] = p := by
  constructor
  · intro s e tb iv
    simp [price_during_session, List.mem_filter, and_assoc]
  · intro p c k
    simp [calculate_tibber_price, price_during_session]

/-- Claim C6: `is_cache_valid` answers `true` exactly when a stored entry
exists whose age is strictly below one hour; an entry fetched at `t` is
fresh at `t+59` minutes, already stale at exactly `t+60`, and stale at
`t+61` (exclusive boundary); an absent cache file answers `false`. -/
theorem is_cache_valid_boundary (now t : ℤ) :
    (∀ file : CacheFile, is_cache_valid now file = .ok true ↔
      ∃ entry, file = .stored entry ∧ now - entry.timestamp < 60)
    ∧ is_cache_valid now .absent = .ok false
    ∧ (∀ w x a o, is_cache_valid (t + 59) (.stored ⟨t, w, x, a, o⟩) = .ok true)
    ∧ (∀ w x a o, is_cache_valid (t + 60) (.stored ⟨t, w, x, a, o⟩) = .ok false)
    ∧ (∀ w x a o, is_cache_valid (t + 61) (.stored ⟨t, w, x, a, o⟩) = .ok false) := by
  refine ⟨?_, rfl, ?_, ?_, ?_⟩
  · intro file
    cases file with
    | absent => simp [is_cache_valid]
    | corrupt => simp [is_cache_valid]
    | stored c => simp [is_cache_valid]
  · intro w x a o
    simp only [is_cache_valid, Except.ok.injEq, decide_eq_true_eq]
    omega
  · intro w x a o
    simp only [is_cache_valid, Except.ok.injEq, decide_eq_false_iff_not]
    omega
  · intro w x a o
    simp only [is_cache_valid, Except.ok.injEq, decide_eq_false_iff_not]
    omega

/-- Counterexample to claim C10: a present-but-corrupt cache file is not
treated as a miss — `is_cache_valid` raises an uncaught unpickling error
(modelled as `Except.error`), so `main` dies instead of fetching fresh. -/
theorem corrupt_cache_fatal_cex :
    is_cache_valid 0 .corrupt = .error "UnpicklingError"
    ∧ main_cache_decision 0 .corrupt ≠ .fetchFresh := by
  refine ⟨rfl, ?_⟩
  simp [main_cache_decision, is_cache_valid]

/-- Claim C10 (amended): an absent cache file is treated as a cache miss —
`is_cache_valid` reports not-fresh and `main` proceeds to fresh retrieval,
never fatally; a stored entry likewise never makes the check fatal.  A
corrupt cache file, however, raises out of `pickle.load` (no handler in
`is_cache_valid` or `load_cache`) and terminates the run. -/
theorem absent_cache_is_miss (now : ℤ) :
    main_cache_decision now .absent = .fetchFresh
    ∧ is_cache_valid now .absent = .ok false
    ∧ main_cache_decision now .corrupt = .fatal "UnpicklingError"
    ∧ ∀ entry msg, main_cache_decision now (.stored entry) ≠ .fatal msg := by
  refine ⟨rfl, rfl, rfl, ?_⟩
  intro entry msg
  cases h : decide (now - entry.timestamp < 60) <;>
    simp [main_cache_decision, is_cache_valid, h]

/-- Concrete instance of C10's amended statement at `now = 0` with an
entry stamped 0. -/
theorem absent_cache_is_miss_witness :
    main_cache_decision 0 .absent = .fetchFresh
    ∧ main_cache_decision 0 (.stored ⟨0, none, none, none, none⟩) ≠ .fatal "UnpicklingError" := by
  refine ⟨(absent_cache_is_miss 0).1, ?_⟩
  exact (absent_cache_is_miss 0).2.2.2 ⟨0, none, none, none, none⟩ "UnpicklingError"

/-- Claim C4 (code bug): with the Wallbox fetch failing (its
`RequestException` handler returns `None`) and the Tibber fetch
succeeding, `main` does not abort after logging: it still calls
`save_cache`, persisting an entry whose `wallbox_data` is `None`, and only
afterwards dies on an uncaught `AttributeError` in the export step (so no
report file is produced, but state *is* persisted). -/
theorem fetch_failure_still_saves_cache :
    (main_fetch_branch 0 none (some (demoTibber, demoAddress, demoOwner))).wallbox_data = none
    ∧ (main_fetch_branch 0 none (some (demoTibber, demoAddress, demoOwner))).tibber_data
        = some demoTibber
    ∧ main_export_step none (some demoTibber) = .error "AttributeError" :=
  ⟨rfl, rfl, rfl⟩

/-- Claim C5 (code bug): with the Tibber fetch failing, `save_cache`
persists a partial entry — sessions present but price table, address and
owner all `None` — and within the hour `is_cache_valid` happily reads it
back as fresh. -/
theorem partial_cache_entry_persisted :
    (main_fetch_branch 0 (some (demoWallbox, demoAddress, demoOwner)) none).wallbox_data
        = some demoWallbox
    ∧ (main_fetch_branch 0 (some (demoWallbox, demoAddress, demoOwner)) none).tibber_data = none
    ∧ (main_fetch_branch 0 (some (demoWallbox, demoAddress, demoOwner)) none).address = none
    ∧ (main_fetch_branch 0 (some (demoWallbox, demoAddress, demoOwner)) none).owner = none
    ∧ is_cache_valid 30
        (.stored (main_fetch_branch 0 (some (demoWallbox, demoAddress, demoOwner)) none))
        = .ok true :=
  ⟨rfl, rfl, rfl, rfl, rfl⟩

/-- Counterexample to claim C3: for the 1 kWh session priced at 0.333, the
code's total is the unrounded 0.333, while the sum of the 2-decimal-rounded
per-row costs is 0.33 — the summary is not computed from rounded rows. -/
theorem total_cost_is_not_rounded_then_summed :
    total_cost (price_sessions thirdTibber unitSession)
      ≠ ((price_sessions thirdTibber unitSession).map fun r => round2 r.totalCost).sum := by
  have h1 : total_cost (price_sessions thirdTibber unitSession) = 333/1000 := by
    simp [thirdTibber, unitSession, total_cost, price_sessions, calculate_tibber_price,
      price_during_session]
  have h2 : ((price_sessions thirdTibber unitSession).map fun r => round2 r.totalCost).sum
      = 33/100 := by
    simp [thirdTibber, unitSession, price_sessions, calculate_tibber_price,
      price_during_session]
    rw [round2_eval_lo _ 33 (by norm_num) (by norm_num)]
    norm_num
  rw [h1, h2]
  norm_num

/-- Claim C3 (amended): the summary's total energy is the exact sum of the
rows' energy fields, and its total cost is the sum of the *unrounded*
per-row costs `energy × effectivePrice` — `process_data_with_filters`
never rounds before summing (two-decimal rounding happens only at display
formatting and in the separate CSV export). -/
theorem totals_from_unrounded_rows (tb : List PriceInterval) (rows : List SessionRow) :
    total_energy (price_sessions tb rows) = (rows.map SessionRow.energy).sum
    ∧ total_cost (price_sessions tb rows)
        = (rows.map fun r => r.energy * calculate_tibber_price r.start r.«end» tb).sum := by
  constructor <;>
    simp [total_energy, total_cost, price_sessions, List.map_map, Function.comp_def]

/-- Counterexample to claim C7: the filter input is compiled as a regular
expression (pandas `str.contains` defaults to `regex=True`), so with input
`"."` the session with identifier `"Tesla"` is retained even though
`"Tesla"` does not contain `"."` as a substring. -/
theorem filter_is_regex_not_substring_cex :
    filtered_rows [⟨10, 20, 5, some "Tesla"⟩] "." 0 100 = [⟨10, 20, 5, some "Tesla"⟩]
    ∧ spec_contains_ci "Tesla" "." = false := by
  constructor
  · have h : str_contains_ci "Tesla" "." = true := by decide
    simp [filtered_rows, sessionPred, List.filter, h]
  · decide

/-- Claim C7 (amended): the filter is stable (its output is a sublist of
the input, in order), and — for identifier inputs made of ASCII
characters none of which is a Python regular-expression metacharacter,
matched against sessions whose identifiers are ASCII — it retains exactly
the sessions whose identifier contains the input case-insensitively (an
absent identifier never matches) and whose `start ≥ startDate` and
`end ≤ endDate`.  Outside that fragment the match is `re.search` of the
compiled pattern (pandas `str.contains` defaults to `regex=True`), not
substring containment. -/
theorem filter_retains_exactly (rows : List SessionRow) (pat : String) (sd ed : ℤ) :
    List.Sublist (filtered_rows rows pat sd ed) rows
    ∧ (literalAsciiPattern pat = true →
        ∀ r, (∀ s, r.id_chip_name = some s → asciiOnly s = true) →
          (r ∈ filtered_rows rows pat sd ed ↔
            r ∈ rows
            ∧ (∃ s, r.id_chip_name = some s ∧ spec_contains_ci s pat = true)
            ∧ r.start ≥ sd ∧ r.«end» ≤ ed)) := by
  constructor
  · exact List.filter_sublist rows
  · intro hm r _
    rw [filtered_rows, List.mem_filter]
    cases hid : r.id_chip_name with
    | none => simp [sessionPred, hid]
    | some s =>
      simp [sessionPred, hid, str_contains_ci_of_literal s pat hm, and_assoc]

/-- Concrete instance of C7's amended statement: the metacharacter-free
ASCII input `"volvo"` retains the session with ASCII identifier
`"Volvo"`. -/
theorem filter_retains_exactly_witness :
    literalAsciiPattern "volvo" = true
    ∧ (⟨10, 20, 5, some "Volvo"⟩ : SessionRow)
        ∈ filtered_rows [⟨10, 20, 5, some "Volvo"⟩] "volvo" 0 100 := by
  refine ⟨by decide, ?_⟩
  exact ((filter_retains_exactly [⟨10, 20, 5, some "Volvo"⟩] "volvo" 0 100).2 (by decide)
      ⟨10, 20, 5, some "Volvo"⟩
      (fun s hs => by
        have hsv : s = "Volvo" := (Option.some.inj hs).symm
        subst hsv
        decide)).mpr
    ⟨by simp, ⟨"Volvo", rfl, by decide⟩, by norm_num, by norm_num⟩

/-- Claim C8: the CSV export computes each row's cost as
`energy × effectivePrice` first and rounds the product to two decimals
afterwards — with the 10 kWh session at price 0.333 the exported cost is
`round2(10 × 0.333) = 3.33`, not the round-factors-first value
`round2(10) × round2(0.333) = 3.30` — and that rounded per-row value is
what the written table holds. -/
theorem export_cost_rounds_after_product (tb : List PriceInterval) (rows : List SessionRow) :
    (export_table_with_prices rows tb).map ExportRow.totalCost
      = rows.map (fun r => round2 (r.energy * calculate_tibber_price r.start r.«end» tb))
    ∧ (export_table_with_prices [⟨0, 60, 10, some "Volvo"⟩] thirdTibber).map
        ExportRow.totalCost = [333/100]
    ∧ round2 (10:ℚ) * round2 (333/1000) = 33/10
    ∧ (333:ℚ)/100 ≠ 33/10 := by
  refine ⟨?_, ?_, ?_, by norm_num⟩
  · simp [export_table_with_prices, List.map_map, Function.comp_def]
  · simp [export_table_with_prices, thirdTibber, calculate_tibber_price, price_during_session]
    rw [round2_eval_lo _ 333 (by norm_num) (by norm_num)]
    norm_num
  · rw [round2_eval_lo (333/1000) 33 (by norm_num) (by norm_num),
      round2_eval_lo 10 1000 (by norm_num) (by norm_num)]
    norm_num

/-- Counterexample to claim C9: the CSV export is not read-only on the
sessions — line 209 writes the rounded `energy` column back into
`wallbox_data`, so a session with energy 10.123 kWh has energy 10.12
afterwards. -/
theorem export_mutates_energy_cex :
    (export_table_with_prices [⟨600, 660, 10123/1000, some "Volvo"⟩] demoTibber).map
        ExportRow.energy
      ≠ [(10123/1000 : ℚ)] := by
  have h : (export_table_with_prices [⟨600, 660, 10123/1000, some "Volvo"⟩] demoTibber).map
      ExportRow.energy = [1012/100] := by
    simp [export_table_with_prices]
    rw [round2_eval_lo _ 1012 (by norm_num) (by norm_num)]
    norm_num
  rw [h]
  simp only [ne_eq, List.cons.injEq, and_true]
  norm_num

/-- Claim C9 (amended): pricing/aggregation (`process_data_with_filters`)
adds only the two derived fields and leaves every base session field
unchanged; the CSV export also preserves `start`, `end` and the
identifier, but overwrites each session's `energy` in place with its
two-decimal rounding. -/
theorem pricing_preserves_base_fields (tb : List PriceInterval) (rows : List SessionRow) :
    (price_sessions tb rows).map PricedRow.base = rows
    ∧ (export_table_with_prices rows tb).map (fun r => (r.start, r.«end», r.id_chip_name))
        = rows.map (fun r => (r.start, r.«end», r.id_chip_name))
    ∧ (export_table_with_prices rows tb).map ExportRow.energy
        = rows.map fun r => round2 r.energy := by
  refine ⟨?_, ?_, ?_⟩ <;>
    simp [price_sessions, export_table_with_prices, List.map_map, Function.comp_def]
